import Mathlib

/-!
Verification development for the storage-engine-agnostic data access layer
(`DatabaseService` with its MySQL, DynamoDB and MongoDB realizations).

The TypeScript sources are shallowly embedded:
* field/record values become the inductive `Value` (JS numbers restricted to
  integers, plus strings, booleans, `null` and nested objects);
* a record (a table row / document) is an association list `Row`;
* each backend's stored state is explicit (`MySQLService.SqlState`,
  `DynamoDBService.DynState`, `MongoDBService.MongoState`) and every operation
  is a pure function from state to an `Except Err` result paired with the
  posterior state;
* transient backend failures (network/lock errors that the relational retry
  wrapper exists for) are modelled by a fault counter in `SqlState`: each
  statement issued through the connection pool consumes one pending fault,
  failing with `Err.transient`, before statements succeed again;
* the SQL strings built by `my-sql-db.ts` are embedded by their MySQL
  semantics (equality `WHERE` filters, `ORDER BY` as a stable multi-key sort,
  `LIMIT ?/OFFSET ?` as take/drop, `INSERT` as append, autogenerated insert
  ids as the new row count).

The embedding follows the first `MySQLService` implementation in
`src/server/my-sql-db.ts` (the file concatenates two versions; the first one,
with `executeWithRetry` and `validateData`, is the one the specification's
line references point at), `src/server/dynamo-db.ts`, and the MongoDB service.
-/

/-- A field value.  JS `number` is modelled as `Int`, `null` as `vnull`, and a
plain object as `vobj` over an ordered field list. -/
inductive Value where
  | vint (n : Int)
  | vstr (s : String)
  | vbool (b : Bool)
  | vnull
  | vobj (fs : List (String × Value))
deriving Repr

mutual

def decEqValue : (a b : Value) → Decidable (a = b)
  | .vint m, .vint n =>
    match decEq m n with
    | .isTrue h => .isTrue (by rw [h])
    | .isFalse h => .isFalse (by simp [h])
  | .vint _, .vstr _ => .isFalse (by simp)
  | .vint _, .vbool _ => .isFalse (by simp)
  | .vint _, .vnull => .isFalse (by simp)
  | .vint _, .vobj _ => .isFalse (by simp)
  | .vstr _, .vint _ => .isFalse (by simp)
  | .vstr s, .vstr t =>
    match decEq s t with
    | .isTrue h => .isTrue (by rw [h])
    | .isFalse h => .isFalse (by simp [h])
  | .vstr _, .vbool _ => .isFalse (by simp)
  | .vstr _, .vnull => .isFalse (by simp)
  | .vstr _, .vobj _ => .isFalse (by simp)
  | .vbool _, .vint _ => .isFalse (by simp)
  | .vbool _, .vstr _ => .isFalse (by simp)
  | .vbool b, .vbool c =>
    match decEq b c with
    | .isTrue h => .isTrue (by rw [h])
    | .isFalse h => .isFalse (by simp [h])
  | .vbool _, .vnull => .isFalse (by simp)
  | .vbool _, .vobj _ => .isFalse (by simp)
  | .vnull, .vint _ => .isFalse (by simp)
  | .vnull, .vstr _ => .isFalse (by simp)
  | .vnull, .vbool _ => .isFalse (by simp)
  | .vnull, .vnull => .isTrue rfl
  | .vnull, .vobj _ => .isFalse (by simp)
  | .vobj _, .vint _ => .isFalse (by simp)
  | .vobj _, .vstr _ => .isFalse (by simp)
  | .vobj _, .vbool _ => .isFalse (by simp)
  | .vobj _, .vnull => .isFalse (by simp)
  | .vobj fs, .vobj gs =>
    match decEqFields fs gs with
    | .isTrue h => .isTrue (by rw [h])
    | .isFalse h => .isFalse (by simp [h])

def decEqFields : (a b : List (String × Value)) → Decidable (a = b)
  | [], [] => .isTrue rfl
  | [], _ :: _ => .isFalse (by simp)
  | _ :: _, [] => .isFalse (by simp)
  | (k, v) :: xs, (l, w) :: ys =>
    match decEq k l, decEqValue v w, decEqFields xs ys with
    | .isTrue h1, .isTrue h2, .isTrue h3 => .isTrue (by rw [h1, h2, h3])
    | .isFalse h1, _, _ => .isFalse (by simp [h1])
    | _, .isFalse h2, _ => .isFalse (by simp [h2])
    | _, _, .isFalse h3 => .isFalse (by simp [h3])

end

instance : DecidableEq Value := decEqValue

/-- A record / table row / document: an ordered field-to-value mapping. -/
abbrev Row := List (String × Value)

/-- A condition set: ordered field-to-value mapping, AND of equalities. -/
abbrev Conds := List (String × Value)

/-- The error kinds the layer can surface. -/
inductive Err where
  | validation (msg : String)
  | invalidAction (msg : String)
  | transient
  | backend (msg : String)
deriving DecidableEq, Repr

instance {ε α : Type} [DecidableEq ε] [DecidableEq α] : DecidableEq (Except ε α)
  | .ok a, .ok b =>
    if h : a = b then .isTrue (by rw [h]) else .isFalse (by simp [h])
  | .ok _, .error _ => .isFalse (by simp)
  | .error _, .ok _ => .isFalse (by simp)
  | .error a, .error b =>
    if h : a = b then .isTrue (by rw [h]) else .isFalse (by simp [h])

mutual

/-- JS `JSON.stringify` on `Value` (string escaping inside `vstr` is not
modelled; the values used in the theorems below contain no quotes). -/
def jsonStringify : Value → String
  | .vnull => "null"
  | .vint n => toString n
  | .vbool b => if b then "true" else "false"
  | .vstr s => "\"" ++ s ++ "\""
  | .vobj fs => "\x7b" ++ jsonFields fs ++ "\x7d"

def jsonFields : List (String × Value) → String
  | [] => ""
  | [(k, v)] => "\"" ++ k ++ "\":" ++ jsonStringify v
  | (k, v) :: rest => "\"" ++ k ++ "\":" ++ jsonStringify v ++ "," ++ jsonFields rest

end

/-- JS `typeof value === "object"`: true for plain objects and also for
`null`. -/
def isObjectType : Value → Bool
  | .vnull => true
  | .vobj _ => true
  | _ => false

/-- The value-conversion `typeof value === "object" ? JSON.stringify(value) :
value` applied by the relational `create`, `bulkInsert` and `update`. -/
def toStored (v : Value) : Value :=
  if isObjectType v then .vstr (jsonStringify v) else v

/-- Does the row satisfy one equality condition `field = value`? -/
def matchesKV (k : String) (v : Value) (row : Row) : Bool :=
  decide (row.lookup k = some v)

/-- Does the row satisfy every condition (AND of equalities)? -/
def matchesAll (conds : Conds) (row : Row) : Bool :=
  conds.all fun kv => matchesKV kv.1 kv.2 row

/-- Value of a field used for sorting; an absent field sorts like SQL `NULL`. -/
def fieldOf (row : Row) (k : String) : Value := (row.lookup k).getD .vnull

/-- Rank used to order values of different kinds (`NULL` lowest, as in MySQL
ascending order). -/
def valueRank : Value → Nat
  | .vnull => 0
  | .vbool _ => 1
  | .vint _ => 2
  | .vstr _ => 3
  | .vobj _ => 4

/-- Total comparison of two values (a deterministic refinement of the
backend's collation: same-kind values compare componentwise, different kinds
by `valueRank`). -/
def cmpValue (x y : Value) : Ordering :=
  match x, y with
  | .vint m, .vint n => compare m n
  | .vstr s, .vstr t => compare s t
  | .vbool b, .vbool c => compare (cond b 1 0) (cond c (1 : Nat) 0)
  | .vobj fs, .vobj gs => compare (jsonStringify (.vobj fs)) (jsonStringify (.vobj gs))
  | x, y => compare (valueRank x) (valueRank y)

/-- Multi-key comparison of two rows: keys apply in the order given (first
key has precedence); the `Bool` per key is `true` for descending. -/
def rowCmp : List (String × Bool) → Row → Row → Ordering
  | [], _, _ => .eq
  | (k, descend) :: rest, r1, r2 =>
    let c0 := cmpValue (fieldOf r1 k) (fieldOf r2 k)
    match (if descend then c0.swap else c0) with
    | .eq => rowCmp rest r1 r2
    | .lt => .lt
    | .gt => .gt

/-- Non-strict "sorts no later than" relation derived from `rowCmp`. -/
def rowLE (sort : List (String × Bool)) (r1 r2 : Row) : Bool :=
  match rowCmp sort r1 r2 with
  | .gt => false
  | _ => true

/-- Stable insertion into an already sorted list. -/
def insertBy (le : Row → Row → Bool) (r : Row) : List Row → List Row
  | [] => [r]
  | x :: xs => if le r x then r :: x :: xs else x :: insertBy le r xs

/-- Stable insertion sort: the deterministic model of the backend's sort. -/
def sortBy (le : Row → Row → Bool) : List Row → List Row
  | [] => []
  | r :: rs => insertBy le r (sortBy le rs)

/-- Sort direction of the relational `getAll` (`"ASC" | "DESC"`). -/
inductive Dir where
  | asc
  | desc
deriving DecidableEq, Repr

/-- `true` iff the direction is descending. -/
def Dir.isDesc : Dir → Bool
  | .asc => false
  | .desc => true

/-- One step of a multi-step transaction (`TransactionAction` of
`my-sql-db.ts` and of the MongoDB service): a method tag plus optional
payload and condition.  The tag is a `String` so that unrecognized tags can
be represented. -/
structure TransactionAction where
  method : String
  data : Option Row := none
  condition : Option Conds := none
deriving DecidableEq, Repr

namespace MySQLService

/-- Retry bound of `executeWithRetry` (`maxRetries` in `my-sql-db.ts`). -/
def maxRetries : Nat := 3

/-- Base delay in milliseconds (`retryDelay` in `my-sql-db.ts`). -/
def retryDelay : Nat := 1000

/-- The relational backend state: the committed table contents plus the
number of pending transient backend faults (each statement issued through
the pool consumes one pending fault and fails before statements succeed
again). -/
structure SqlState where
  table : List Row
  faults : Nat
deriving DecidableEq, Repr

/-- `this.pool.execute(...)`: runs one SQL statement on a pool connection in
autocommit mode.  A pending transient fault makes the call fail; otherwise
the statement's semantics is applied to the committed table. -/
def poolExecute {A : Type} (stmt : List Row → Except Err (A × List Row))
    (st : SqlState) : Except Err A × SqlState :=
  match st.faults with
  | f + 1 => (.error .transient, ⟨st.table, f⟩)
  | 0 =>
    match stmt st.table with
    | .ok (a, t) => (.ok a, ⟨t, 0⟩)
    | .error e => (.error e, st)

/-- `executeWithRetry` of `my-sql-db.ts` lines 39-52: the
`for (attempt = 1; attempt <= maxRetries; ...)` loop unrolled for
`maxRetries = 3`.  Besides the result and posterior state it returns the
list of backoff delays slept (`retryDelay * attempt` after each failed
attempt except the last); the error thrown after exhaustion is the last
attempt's error, unchanged. -/
def executeWithRetry {A : Type} (op : SqlState → Except Err A × SqlState)
    (st : SqlState) : Except Err A × SqlState × List Nat :=
  match op st with
  | (.ok a, st1) => (.ok a, st1, [])
  | (.error _, st1) =>
    match op st1 with
    | (.ok a, st2) => (.ok a, st2, [retryDelay * 1])
    | (.error _, st2) =>
      match op st2 with
      | (.ok a, st3) => (.ok a, st3, [retryDelay * 1, retryDelay * 2])
      | (.error e, st3) => (.error e, st3, [retryDelay * 1, retryDelay * 2])

/-- `validateData`: rejects an empty record or condition object. -/
def validateData (data : List (String × Value)) : Except Err Unit :=
  if data.isEmpty then .error (.validation ("Data object cannot be empty"))
  else .ok ()

/-- The `INSERT INTO t (fields) VALUES (?...)` built by `create`: object
values are JSON-stringified, the row is appended, and the autogenerated
`insertId` is modelled as the new row count. -/
def createStmt (data : Row) (table : List Row) : Except Err (Nat × List Row) :=
  let row := data.map fun kv => (kv.1, toStored kv.2)
  .ok (table.length + 1, table ++ [row])

/-- `create(data)`: validates, then runs the insert under the retry
wrapper. -/
def create (data : Row) (st : SqlState) : Except Err Nat × SqlState × List Nat :=
  match validateData data with
  | .error e => (.error e, st, [])
  | .ok _ => executeWithRetry (poolExecute (createStmt data)) st

/-- Body of `bulkInsert` (run inside the retry wrapper): validates the first
item, requires every item to have the *same number* of keys as the first
(`Object.keys(item).length !== Object.keys(firstItem).length`), and inserts
each item's (converted) value list under the first item's column list
(`fields` comes from `firstItem` only). -/
def bulkInsertStmt (dataArray : List Row) (first : Row) (table : List Row) :
    Except Err (Nat × List Row) :=
  if first.isEmpty then .error (.validation ("Data object cannot be empty"))
  else if dataArray.any (fun item => decide (item.length ≠ first.length)) then
    .error (.validation ("All items in array must have the same structure"))
  else
    let fields := first.map Prod.fst
    let newRows := dataArray.map fun item => fields.zip (item.map fun kv => toStored kv.2)
    .ok (dataArray.length, table ++ newRows)

/-- `bulkInsert(dataArray)`: an empty array returns `0` immediately
(`if (dataArray.length === 0) return 0;`), otherwise the batch insert runs
under the retry wrapper. -/
def bulkInsert (dataArray : List Row) (st : SqlState) :
    Except Err Nat × SqlState × List Nat :=
  match dataArray with
  | [] => (.ok 0, st, [])
  | first :: _ => executeWithRetry (poolExecute (bulkInsertStmt dataArray first)) st

/-- The `SELECT * FROM t WHERE field = ? LIMIT 1` built by `get`: only the
*first* condition key is used (`Object.keys(condition)[0]`). -/
def getStmt (condition : Conds) (table : List Row) :
    Except Err (Option Row × List Row) :=
  match condition.head? with
  | some (k, v) => .ok (table.find? (matchesKV k v), table)
  | none => .error (.backend ("unknown column"))

/-- `get(condition)`: validates non-emptiness, then runs the single-condition
lookup under the retry wrapper. -/
def get (condition : Conds) (st : SqlState) :
    Except Err (Option Row) × SqlState × List Nat :=
  match validateData condition with
  | .error e => (.error e, st, [])
  | .ok _ => executeWithRetry (poolExecute (getStmt condition)) st

/-- `getAll(conditions, sort, limit, offset)`: `WHERE` with *all* conditions
(added only when non-empty), `ORDER BY` the sort keys in order (added only
when non-empty), then `LIMIT ? OFFSET ?`.  Not wrapped in the retry
wrapper. -/
def getAll (conditions : Conds) (sort : List (String × Dir)) (limit offset : Nat)
    (st : SqlState) : Except Err (List Row) × SqlState :=
  poolExecute
    (fun table =>
      let filtered := if conditions.isEmpty then table else table.filter (matchesAll conditions)
      let sorted :=
        if sort.isEmpty then filtered
        else sortBy (rowLE (sort.map fun kd => (kd.1, kd.2.isDesc))) filtered
      .ok ((sorted.drop offset).take limit, table))
    st

/-- `getAll` with its default parameters (`limit = 10`, `offset = 0`). -/
def getAllDefault (conditions : Conds) (sort : List (String × Dir)) (st : SqlState) :
    Except Err (List Row) × SqlState :=
  getAll conditions sort 10 0 st

/-- The `SET` part of `update`: every data field present in the row is
overwritten with its (JSON-converted) new value.  The SQL table schema is
not modelled, so data keys absent from a row are ignored. -/
def applySet (data : Row) (row : Row) : Row :=
  row.map fun kv =>
    match data.lookup kv.1 with
    | some v => (kv.1, toStored v)
    | none => kv

/-- The `UPDATE t SET ... WHERE field = ?` built by `update`: only the
*first* condition key is used; `affectedRows` counts the rows actually
changed. -/
def updateStmt (data : Row) (condition : Conds) (table : List Row) :
    Except Err (Nat × List Row) :=
  match condition.head? with
  | some (k, v) =>
    .ok ((table.filter fun r => matchesKV k v r && decide (applySet data r ≠ r)).length,
      table.map fun r => if matchesKV k v r then applySet data r else r)
  | none => .error (.backend ("unknown column"))

/-- `update(data, condition)`: validates both arguments, runs the update
under the retry wrapper, and returns `affectedRows > 0`. -/
def update (data : Row) (condition : Conds) (st : SqlState) :
    Except Err Bool × SqlState × List Nat :=
  match validateData data with
  | .error e => (.error e, st, [])
  | .ok _ =>
    match validateData condition with
    | .error e => (.error e, st, [])
    | .ok _ =>
      match executeWithRetry (poolExecute (updateStmt data condition)) st with
      | (r, st', ds) => (r.map fun n => decide (0 < n), st', ds)

/-- `field = field + ?` on one value: integers are incremented, SQL `NULL`
propagates (`NULL + x = NULL`); non-numeric SQL coercions are not
modelled. -/
def addAmount (amount : Int) : Value → Value
  | .vint n => .vint (n + amount)
  | .vnull => .vnull
  | v => v

/-- Applies `field = field + ?` to one row. -/
def incRow (field : String) (amount : Int) (row : Row) : Row :=
  row.map fun kv => if kv.1 = field then (kv.1, addAmount amount kv.2) else kv

/-- The `UPDATE t SET field = field + ? WHERE cfield = ?` built by
`increment`: only the *first* condition key is used; `affectedRows` counts
the rows actually changed. -/
def incStmt (field : String) (amount : Int) (condition : Conds) (table : List Row) :
    Except Err (Nat × List Row) :=
  match condition.head? with
  | some (k, v) =>
    .ok ((table.filter fun row => matchesKV k v row && decide (incRow field amount row ≠ row)).length,
      table.map fun row => if matchesKV k v row then incRow field amount row else row)
  | none => .error (.backend ("unknown column"))

/-- `increment(field, amount, condition)`: no validation, no retry wrapper;
returns `affectedRows > 0`. -/
def increment (field : String) (amount : Int) (condition : Conds) (st : SqlState) :
    Except Err Bool × SqlState :=
  match poolExecute (incStmt field amount condition) st with
  | (r, st') => (r.map fun n => decide (0 < n), st')

/-- The `DELETE FROM t WHERE field = ?` built by `delete`: only the *first*
condition key is used. -/
def deleteStmt (condition : Conds) (table : List Row) : Except Err (Nat × List Row) :=
  match condition.head? with
  | some (k, v) =>
    .ok ((table.filter (matchesKV k v)).length, table.filter fun r => ! matchesKV k v r)
  | none => .error (.backend ("unknown column"))

/-- `delete(condition)`: no validation, no retry wrapper; returns
`affectedRows > 0`. -/
def delete (condition : Conds) (st : SqlState) : Except Err Bool × SqlState :=
  match poolExecute (deleteStmt condition) st with
  | (r, st') => (r.map fun n => decide (0 < n), st')

/-- `SELECT COUNT(*) ... WHERE ...` built by `count`: all conditions, the
`WHERE` clause added only when the condition set is non-empty.  Not wrapped
in the retry wrapper. -/
def countStmt (conditions : Conds) (table : List Row) : Except Err (Nat × List Row) :=
  .ok ((if conditions.isEmpty then table else table.filter (matchesAll conditions)).length,
    table)

/-- `count(conditions)`. -/
def count (conditions : Conds) (st : SqlState) : Except Err Nat × SqlState :=
  poolExecute (countStmt conditions) st

/-- `exists(condition)`: `(await this.count(condition)) > 0`. -/
def «exists» (condition : Conds) (st : SqlState) : Except Err Bool × SqlState :=
  match count condition st with
  | (.ok n, st') => (.ok (decide (0 < n)), st')
  | (.error e, st') => (.error e, st')

/-- One dispatch step of the `for (const action of actions)` loop of
`transaction` (`my-sql-db.ts` lines 224-250).  Every branch calls the
*public* single-operation method (`this.create`, `this.update`,
`this.delete`, `this.increment`), which issues its statement through
`this.pool` on some autocommit pool connection — not on the connection the
transaction was begun on.  An empty `method` string is falsy in JS, hence
the dedicated error; a `""`/absent payload fails the per-method guards; an
unrecognized tag hits the `default` branch. -/
def runAction (act : TransactionAction) (st : SqlState) :
    Except Err Unit × SqlState × List Nat :=
  if act.method = "" then
    (.error (.validation ("Transaction action method is required")), st, [])
  else if act.method = "create" then
    match act.data with
    | none => (.error (.validation ("Data is required for create action")), st, [])
    | some d =>
      match create d st with
      | (r, st', ds) => (r.map fun _ => (), st', ds)
  else if act.method = "update" then
    match act.data, act.condition with
    | some d, some c =>
      match update d c st with
      | (r, st', ds) => (r.map fun _ => (), st', ds)
    | _, _ =>
      (.error (.validation ("Data and condition are required for update action")), st, [])
  else if act.method = "delete" then
    match act.condition with
    | some c =>
      match delete c st with
      | (r, st') => (r.map fun _ => (), st', [])
    | none => (.error (.validation ("Condition is required for delete action")), st, [])
  else if act.method = "increment" then
    match act.data, act.condition with
    | some d, some c =>
      match d with
      | (f, .vint a) :: _ =>
        match increment f a c st with
        | (r, st') => (r.map fun _ => (), st', [])
      | _ =>
        (.error (.backend ("unknown column")), st, [])
    | _, _ =>
      (.error (.validation ("Data and condition are required for increment action")), st, [])
  else
    (.error (.invalidAction ("Invalid transaction method: " ++ act.method)), st, [])

/-- The action loop of `transaction` with the begin/commit/rollback
book-keeping.  The transaction connection obtained from the pool never has a
statement issued on it, so its pending statement list is empty throughout:
`connection.commit()` at the end publishes nothing new, and
`connection.rollback()` on failure undoes nothing — the committed effects of
the earlier actions (applied via the public methods on other autocommit
connections) are retained, and the error is rethrown. -/
def txLoop : List TransactionAction → SqlState → List Nat →
    Except Err Bool × SqlState × List Nat
  | [], st, ds => (.ok true, st, ds)
  | act :: rest, st, ds =>
    match runAction act st with
    | (.ok _, st', ds') => txLoop rest st' (ds ++ ds')
    | (.error e, st', ds') => (.error e, st', ds ++ ds')

/-- `transaction(actions)` of `my-sql-db.ts` lines 214-264: an empty action
list is rejected before a connection is obtained; otherwise the actions are
dispatched in order through the public single-operation methods. -/
def transaction (actions : List TransactionAction) (st : SqlState) :
    Except Err Bool × SqlState × List Nat :=
  if actions.isEmpty then
    (.error (.validation ("Transaction actions cannot be empty")), st, [])
  else
    txLoop actions st []

end MySQLService

namespace DynamoDBService

/-- The wide-column backend state: the table's key schema (the attribute
names forming the primary key) and the stored items. -/
structure DynState where
  keySchema : List String
  items : List Row
deriving DecidableEq, Repr

/-- Do two attribute-name lists denote the same attribute set? -/
def sameKeySet (a b : List String) : Bool :=
  (a.all fun x => decide (x ∈ b)) && (b.all fun x => decide (x ∈ a))

/-- `get(condition)`: a `DocumentClient.get` with `Key: condition`.  DynamoDB
rejects a key object that does not match the table's key schema with a
`ValidationException`; otherwise the item with exactly that primary key is
returned (or `null`). -/
def get (condition : Conds) (st : DynState) : Except Err (Option Row) :=
  if sameKeySet (condition.map Prod.fst) st.keySchema then
    .ok (st.items.find? (matchesAll condition))
  else
    .error (.backend ("ValidationException: the provided key element does not match the schema"))

/-- `getAll()` of `dynamo-db.ts` lines 42-48: it takes *no* parameters and is
a bare `Scan` of the whole table — no filter, no sort, no pagination. -/
def getAll (st : DynState) : List Row := st.items

/-- `count(condition)`: a `Scan` with an attribute-equality
`FilterExpression` over all conditions, returning the matching count. -/
def count (condition : Conds) (st : DynState) : Nat :=
  (st.items.filter (matchesAll condition)).length

/-- `exists(condition)`: `!!(await this.get(condition))` — a primary-key
lookup, not a count. -/
def «exists» (condition : Conds) (st : DynState) : Except Err Bool :=
  (get condition st).map fun r => r.isSome

end DynamoDBService

namespace MongoDBService

/-- The document backend state: the documents of the one collection the
service instance is bound to. -/
abbrev MongoState := List Row

/-- `get(condition)`: `findOne(condition)` — first document matching *all*
conditions (an empty filter matches every document). -/
def get (condition : Conds) (st : MongoState) : Option Row :=
  st.find? (matchesAll condition)

/-- `count(condition)`: `countDocuments(condition)`. -/
def count (condition : Conds) (st : MongoState) : Nat :=
  (st.filter (matchesAll condition)).length

/-- `exists(condition)`: `findOne(condition, projection _id) !== null`. -/
def «exists» (condition : Conds) (st : MongoState) : Bool :=
  (st.find? (matchesAll condition)).isSome

/-- `getAll(conditions, sort, limit, offset)`:
`find(conditions).sort(sort).skip(offset).limit(limit)`.  A Mongo sort
direction is a number (`1` ascending, `-1` descending); `limit(0)` means *no*
limit in the MongoDB driver. -/
def getAll (conditions : Conds) (sort : List (String × Int)) (limit offset : Nat)
    (st : MongoState) : List Row :=
  let filtered := st.filter (matchesAll conditions)
  let sorted :=
    if sort.isEmpty then filtered
    else sortBy (rowLE (sort.map fun kd => (kd.1, decide (kd.2 < 0)))) filtered
  let paged := sorted.drop offset
  if limit = 0 then paged else paged.take limit

/-- `$set` on one field: overwrites it when present, adds it otherwise. -/
def setField (row : Row) (k : String) (v : Value) : Row :=
  if (row.lookup k).isSome then row.map fun kv => if kv.1 = k then (k, v) else kv
  else row ++ [(k, v)]

/-- `$set` with a whole data document. -/
def applySet (data : Row) (row : Row) : Row :=
  data.foldl (fun acc kv => setField acc kv.1 kv.2) row

/-- `$inc` on one field: increments an integer field, creates a missing
field with the amount, and fails on a non-numeric field or amount. -/
def incField (row : Row) (k : String) (amount : Value) : Except Err Row :=
  match amount with
  | .vint a =>
    match row.lookup k with
    | some (.vint n) =>
      .ok (row.map fun kv => if kv.1 = k then (k, .vint (n + a)) else kv)
    | none => .ok (row ++ [(k, .vint a)])
    | some _ => .error (.backend ("Cannot apply $inc to a value of non-numeric type"))
  | _ => .error (.backend ("Cannot increment with non-numeric argument"))

/-- `$inc` with a whole field-to-amount document. -/
def applyInc (data : Row) (row : Row) : Except Err Row :=
  data.foldlM (fun acc kv => incField acc kv.1 kv.2) row

/-- `updateOne`/`deleteOne` touch only the *first* matching document. -/
def updateFirstWith (condition : Conds) (f : Row → Except Err Row) :
    MongoState → Except Err MongoState
  | [] => .ok []
  | r :: rs =>
    if matchesAll condition r then (f r).map fun r' => r' :: rs
    else (updateFirstWith condition f rs).map fun rs' => r :: rs'

/-- `deleteOne(condition)`: removes the first matching document. -/
def deleteFirst (condition : Conds) : MongoState → MongoState
  | [] => []
  | r :: rs => if matchesAll condition r then rs else r :: deleteFirst condition rs

/-- One dispatch step of the `switch (method)` inside the MongoDB
`transaction` (all statements run on the shared session): `create` is
`insertOne(data)`, `update` is `updateOne(condition, $set data)`, `delete`
is `deleteOne(condition)`, `increment` is `updateOne(condition, $inc data)`
with the *whole* data document as the `$inc` argument, and an unrecognized
tag throws `Invalid transaction method`.  The non-null assertions `data!` /
`condition!` on an absent field make the driver call fail. -/
def applyAction (act : TransactionAction) (st : MongoState) : Except Err MongoState :=
  if act.method = "create" then
    match act.data with
    | some d => .ok (st ++ [d])
    | none => .error (.backend ("document must not be null or undefined"))
  else if act.method = "update" then
    match act.condition, act.data with
    | some c, some d => updateFirstWith c (fun r => .ok (applySet d r)) st
    | _, _ => .error (.backend ("filter or update document is undefined"))
  else if act.method = "delete" then
    match act.condition with
    | some c => .ok (deleteFirst c st)
    | none => .error (.backend ("filter document is undefined"))
  else if act.method = "increment" then
    match act.condition, act.data with
    | some c, some d => updateFirstWith c (applyInc d) st
    | _, _ => .error (.backend ("filter or update document is undefined"))
  else
    .error (.invalidAction ("Invalid transaction method: " ++ act.method))

/-- The body of `session.withTransaction`: the actions run in order on the
session; the first failure aborts the whole unit. -/
def txLoop : List TransactionAction → MongoState → Except Err MongoState
  | [], st => .ok st
  | act :: rest, st =>
    match applyAction act st with
    | .ok st' => txLoop rest st'
    | .error e => .error e

/-- `transaction(actions)` of the MongoDB service: on success the session
commits and `true` is returned; on *any* failure the session aborts (state
unchanged), the error is caught (`catch ... console.error`), and `false` is
returned — no error ever propagates to the caller. -/
def transaction (actions : List TransactionAction) (st : MongoState) :
    Except Err Bool × MongoState :=
  match txLoop actions st with
  | .ok st' => (.ok true, st')
  | .error _ => (.ok false, st)

end MongoDBService

namespace MongoDBService

/-- `increment(field, amount, condition)` of the MongoDB service:
`updateOne(condition, { $inc: { [field]: amount } })` — the *first* matching
document is updated, a missing field is created with the amount (missing
treated as zero), and the returned `modifiedCount > 0` is modelled as "the
stored state changed". -/
def increment (field : String) (amount : Int) (condition : Conds) (st : MongoState) :
    Except Err Bool × MongoState :=
  match updateFirstWith condition (fun r => incField r field (.vint amount)) st with
  | .ok st' => (.ok (decide (st' ≠ st)), st')
  | .error e => (.error e, st)

end MongoDBService

namespace DynamoDBService

/-- The `SET #field = if_not_exists(#field, :zero) + :amount` update
expression of `increment` applied to one item: an integer field is
incremented, a missing field is created as `0 + amount`, and a non-numeric
field is a type error. -/
def incItem (field : String) (amount : Int) (item : Row) : Except Err Row :=
  match item.lookup field with
  | some (.vint n) =>
    .ok (item.map fun kv => if kv.1 = field then (field, .vint (n + amount)) else kv)
  | none => .ok (item ++ [(field, .vint amount)])
  | some _ =>
    .error (.backend ("An operand in the update expression has an incorrect data type"))

/-- `DocumentClient.update` key resolution: the item whose key attributes
equal the `Key` is updated in place; when no such item is stored, DynamoDB
*creates* one from the key attributes and applies the update expression to
it (upsert). -/
def incUpdate (field : String) (amount : Int) (condition : Conds) :
    List Row → Except Err (List Row)
  | [] => (incItem field amount condition).map fun item => [item]
  | item :: rest =>
    if matchesAll condition item then (incItem field amount item).map fun item' => item' :: rest
    else (incUpdate field amount condition rest).map fun rest' => item :: rest'

/-- `increment(field, amount, condition)` of `dynamo-db.ts` lines 88-103: an
`update` with `Key: condition` and the `if_not_exists` expression; the key
object must match the table's key schema; the method then returns `true`
unconditionally. -/
def increment (field : String) (amount : Int) (condition : Conds) (st : DynState) :
    Except Err Bool × DynState :=
  if sameKeySet (condition.map Prod.fst) st.keySchema then
    match incUpdate field amount condition st.items with
    | .ok items' => (.ok true, ⟨st.keySchema, items'⟩)
    | .error e => (.error e, st)
  else
    (.error (.backend ("ValidationException: the provided key element does not match the schema")),
      st)

end DynamoDBService

section Lemmas

lemma matchesAll_nil (row : Row) : matchesAll [] row = true := rfl

lemma filter_matchesAll_nil (t : List Row) : t.filter (matchesAll []) = t :=
  List.filter_eq_self.mpr fun _ _ => rfl

lemma rowLE_nil (r1 r2 : Row) : rowLE [] r1 r2 = true := rfl

lemma insertBy_of_true (le : Row → Row → Bool) (h : ∀ a b, le a b = true)
    (r : Row) (l : List Row) : insertBy le r l = r :: l := by
  cases l with
  | nil => rfl
  | cons x xs => simp [insertBy, h]

lemma sortBy_of_true (le : Row → Row → Bool) (h : ∀ a b, le a b = true)
    (l : List Row) : sortBy le l = l := by
  induction l with
  | nil => rfl
  | cons r rs ih => simp [sortBy, ih, insertBy_of_true le h]

lemma mem_insertBy (le : Row → Row → Bool) (r x : Row) (l : List Row) :
    x ∈ insertBy le r l ↔ x = r ∨ x ∈ l := by
  induction l with
  | nil => simp [insertBy]
  | cons y ys ih =>
    simp only [insertBy]
    split
    · simp
    · simp only [List.mem_cons, ih]
      tauto

lemma mem_sortBy (le : Row → Row → Bool) (x : Row) (l : List Row) :
    x ∈ sortBy le l ↔ x ∈ l := by
  induction l with
  | nil => simp [sortBy]
  | cons r rs ih => simp [sortBy, mem_insertBy, ih]

lemma find?_isSome_eq_filter_pos (p : Row → Bool) (l : List Row) :
    (l.find? p).isSome = decide (0 < (l.filter p).length) := by
  induction l with
  | nil => rfl
  | cons r rs ih =>
    cases h : p r with
    | true => simp [List.find?_cons, List.filter_cons, h]
    | false => simp [List.find?_cons, List.filter_cons, h, ih]

lemma toStored_obj (v : Value) (h : isObjectType v = true) :
    toStored v = .vstr (jsonStringify v) := by
  simp [toStored, h]

lemma mysql_txLoop_classify (acts : List TransactionAction) :
    ∀ (st : MySQLService.SqlState) (ds : List Nat),
      (MySQLService.txLoop acts st ds).1 = .ok true ∨
        ∃ e, (MySQLService.txLoop acts st ds).1 = .error e := by
  induction acts with
  | nil => intro st ds; exact .inl rfl
  | cons act rest ih =>
    intro st ds
    simp only [MySQLService.txLoop]
    rcases h : MySQLService.runAction act st with ⟨r, st', ds'⟩
    cases r with
    | ok u => exact ih st' (ds ++ ds')
    | error e => exact .inr ⟨e, rfl⟩

lemma mysql_getAll_spec (conds : Conds) (sortS : List (String × Dir))
    (lim off : Nat) (t : List Row) :
    MySQLService.getAll conds sortS lim off ⟨t, 0⟩ =
      (.ok (((sortBy (rowLE (sortS.map fun kd => (kd.1, kd.2.isDesc)))
        (t.filter (matchesAll conds))).drop off).take lim), ⟨t, 0⟩) := by
  cases conds with
  | nil =>
    cases sortS with
    | nil =>
      simp [MySQLService.getAll, MySQLService.poolExecute, filter_matchesAll_nil,
        sortBy_of_true _ rowLE_nil]
    | cons s ss =>
      simp [MySQLService.getAll, MySQLService.poolExecute, filter_matchesAll_nil]
  | cons c cs =>
    cases sortS with
    | nil =>
      simp [MySQLService.getAll, MySQLService.poolExecute, sortBy_of_true _ rowLE_nil]
    | cons s ss =>
      simp [MySQLService.getAll, MySQLService.poolExecute]

end Lemmas

/-- C9: in the Relational variant, `transaction` called with an empty action
list throws `Transaction actions cannot be empty` (before any connection is
obtained: the state, including any pending faults, is untouched). -/
theorem C9_transaction_rejects_empty_actions (st : MySQLService.SqlState) :
    MySQLService.transaction [] st =
      (.error (.validation ("Transaction actions cannot be empty")), st, []) := rfl

/-- C1: evaluation of the Relational `transaction` at the failing input
`[create x=1, frobnicate]` on an empty table: the unrecognized tag makes the
call throw, but the record created by the first action remains committed —
the actions were dispatched through the public single-operation methods on
autocommit pool connections, so the `rollback` on the (idle) transaction
connection undoes nothing.  The Document variant on the same input aborts the
session and leaves the collection unchanged (though it swallows the error). -/
theorem C1_relational_transaction_not_atomic :
    MySQLService.transaction
        [⟨"create", some [("x", .vint 1)], none⟩, ⟨"frobnicate", none, none⟩]
        ⟨[], 0⟩ =
      (.error (.invalidAction ("Invalid transaction method: frobnicate")),
        ⟨[[("x", .vint 1)]], 0⟩, []) ∧
    MongoDBService.transaction
        [⟨"create", some [("x", .vint 1)], none⟩, ⟨"frobnicate", none, none⟩]
        [] =
      (.ok false, []) := by
  exact ⟨by decide, by decide⟩

/-- C2 (counterexample): the Document variant's `transaction` catches the
failure of an unrecognized action tag and returns the normal boolean `false`
instead of surfacing the error. -/
theorem C2_mongo_transaction_swallows_error :
    MongoDBService.transaction [⟨"frobnicate", none, none⟩] [] = (.ok false, []) := by
  decide

/-- C2 (amended): the Document `transaction` never lets any failure
propagate — it always returns a normal boolean; the Relational `transaction`
never converts a failure into a boolean — it returns `true` or rethrows the
error; and the Relational `update` on zero matched rows returns the
documented success outcome `false`, not an error. -/
theorem C2_error_propagation_amended :
    (∀ (actions : List TransactionAction) (st : MongoDBService.MongoState),
      ∃ b st2, MongoDBService.transaction actions st = (.ok b, st2)) ∧
    (∀ (actions : List TransactionAction) (st : MySQLService.SqlState),
      (MySQLService.transaction actions st).1 = .ok true ∨
        ∃ e, (MySQLService.transaction actions st).1 = .error e) ∧
    MySQLService.update [("b", .vint 2)] [("a", .vint 1)] ⟨[], 0⟩ =
      (.ok false, ⟨[], 0⟩, []) := by
  refine ⟨?_, ?_, by decide⟩
  · intro actions st
    cases h : MongoDBService.txLoop actions st with
    | ok st' => exact ⟨true, st', by simp [MongoDBService.transaction, h]⟩
    | error e => exact ⟨false, st, by simp [MongoDBService.transaction, h]⟩
  · intro actions st
    cases actions with
    | nil => exact .inr ⟨_, rfl⟩
    | cons act rest => exact mysql_txLoop_classify (act :: rest) st []

/-- C3 (counterexample): the Relational `get` with conditions
`a = 1 AND b = 2` returns the stored record `a = 1, b = 3`, which does not
match all conditions (the claim requires `null` here); and the Document `get`
with an *empty* condition set returns the first document instead of failing
with a `ValidationError`. -/
theorem C3_get_ignores_later_conditions :
    MySQLService.get [("a", .vint 1), ("b", .vint 2)]
        ⟨[[("a", .vint 1), ("b", .vint 3)]], 0⟩ =
      (.ok (some [("a", .vint 1), ("b", .vint 3)]),
        ⟨[[("a", .vint 1), ("b", .vint 3)]], 0⟩, []) ∧
    matchesAll [("a", .vint 1), ("b", .vint 2)] [("a", .vint 1), ("b", .vint 3)] = false ∧
    MongoDBService.get [] [[("a", .vint 5)]] = some [("a", .vint 5)] := by
  exact ⟨by decide, by decide, by decide⟩

/-- C3 (amended): the Relational `get` filters only on the *first* key of the
condition set — it returns the first record whose value at that key matches,
ignoring every later condition — and fails with a `ValidationError` when the
condition set is empty; the Document `get` matches *all* conditions (every
record it returns satisfies the whole condition set) but does not reject an
empty condition set. -/
theorem C3_get_first_condition_amended :
    (∀ (k : String) (v : Value) (rest : Conds) (t : List Row),
      MySQLService.get ((k, v) :: rest) ⟨t, 0⟩ =
        (.ok (t.find? (matchesKV k v)), ⟨t, 0⟩, [])) ∧
    (∀ (st : MySQLService.SqlState),
      MySQLService.get [] st =
        (.error (.validation ("Data object cannot be empty")), st, [])) ∧
    (∀ (c : Conds) (st : MongoDBService.MongoState) (r : Row),
      MongoDBService.get c st = some r → matchesAll c r = true) := by
  refine ⟨fun k v rest t => rfl, fun st => rfl, ?_⟩
  intro c st r h
  exact List.find?_some h

/-- Witness for C3 (amended): instantiates the Relational characterization at
a one-row table and the Document property at a concrete matching document. -/
theorem C3_get_first_condition_amended_witness :
    MySQLService.get [("a", .vint 1)] ⟨[[("a", .vint 1)]], 0⟩ =
      (.ok (some [("a", .vint 1)]), ⟨[[("a", .vint 1)]], 0⟩, []) ∧
    matchesAll [("a", .vint 2)] [("a", .vint 2)] = true := by
  constructor
  · exact C3_get_first_condition_amended.1 "a" (.vint 1) [] [[("a", .vint 1)]]
  · exact C3_get_first_condition_amended.2.2 [("a", .vint 2)] [[("a", .vint 2)]]
      [("a", .vint 2)] (by decide)

/-- C4 (counterexample): the WideColumn `getAll` takes no parameters at all
and returns every stored item — with 11 items it returns all 11, exceeding
the claimed default page size of 10 (`11 ≤ 10` is false). -/
theorem C4_dynamo_getAll_unpaginated :
    DynamoDBService.getAll
        ⟨["id"], [[("id", .vint 1)], [("id", .vint 2)], [("id", .vint 3)],
          [("id", .vint 4)], [("id", .vint 5)], [("id", .vint 6)], [("id", .vint 7)],
          [("id", .vint 8)], [("id", .vint 9)], [("id", .vint 10)], [("id", .vint 11)]]⟩ =
      [[("id", .vint 1)], [("id", .vint 2)], [("id", .vint 3)], [("id", .vint 4)],
        [("id", .vint 5)], [("id", .vint 6)], [("id", .vint 7)], [("id", .vint 8)],
        [("id", .vint 9)], [("id", .vint 10)], [("id", .vint 11)]] ∧
    (DynamoDBService.getAll
        ⟨["id"], [[("id", .vint 1)], [("id", .vint 2)], [("id", .vint 3)],
          [("id", .vint 4)], [("id", .vint 5)], [("id", .vint 6)], [("id", .vint 7)],
          [("id", .vint 8)], [("id", .vint 9)], [("id", .vint 10)], [("id", .vint 11)]]⟩).length
      = 11 := by
  exact ⟨by decide, by decide⟩

/-- C4 (amended): the Relational `getAll` filters by *all* conditions, sorts
by the sort keys in order (each ascending or descending) and paginates as
`drop offset` then `take limit`, with defaults `limit = 10`, `offset = 0`;
its result rows all match the conditions and number at most `limit`.  The
Document `getAll` likewise returns only matching rows, at most `limit` of
them (for a positive limit; the driver treats `limit(0)` as "no limit").
The WideColumn `getAll`, however, takes no parameters and returns the whole
table unfiltered, unsorted and unpaginated. -/
theorem C4_getAll_amended :
    (∀ (conds : Conds) (sortS : List (String × Dir)) (lim off : Nat) (t : List Row),
      MySQLService.getAll conds sortS lim off ⟨t, 0⟩ =
        (.ok (((sortBy (rowLE (sortS.map fun kd => (kd.1, kd.2.isDesc)))
          (t.filter (matchesAll conds))).drop off).take lim), ⟨t, 0⟩)) ∧
    (∀ (conds : Conds) (sortS : List (String × Dir)) (st : MySQLService.SqlState),
      MySQLService.getAllDefault conds sortS st = MySQLService.getAll conds sortS 10 0 st) ∧
    (∀ (conds : Conds) (sortS : List (String × Dir)) (lim off : Nat) (t : List Row)
        (rows : List Row) (st2 : MySQLService.SqlState),
      MySQLService.getAll conds sortS lim off ⟨t, 0⟩ = (.ok rows, st2) →
        rows.length ≤ lim ∧ ∀ r ∈ rows, matchesAll conds r = true) ∧
    (∀ (conds : Conds) (sortS : List (String × Int)) (lim off : Nat)
        (st : MongoDBService.MongoState),
      0 < lim →
        (MongoDBService.getAll conds sortS lim off st).length ≤ lim ∧
        ∀ r ∈ MongoDBService.getAll conds sortS lim off st, matchesAll conds r = true) ∧
    (∀ (st : DynamoDBService.DynState), DynamoDBService.getAll st = st.items) := by
  refine ⟨mysql_getAll_spec, fun conds sortS st => rfl, ?_, ?_, fun st => rfl⟩
  · intro conds sortS lim off t rows st2 h
    rw [mysql_getAll_spec] at h
    have hrows : rows =
        ((sortBy (rowLE (sortS.map fun kd => (kd.1, kd.2.isDesc)))
          (t.filter (matchesAll conds))).drop off).take lim := by
      have := congrArg Prod.fst h
      simpa using this.symm
    subst hrows
    refine ⟨List.length_take_le _ _, ?_⟩
    intro r hr
    have h1 := List.mem_of_mem_take hr
    have h2 := List.mem_of_mem_drop h1
    have h3 := (mem_sortBy _ _ _).mp h2
    exact (List.mem_filter.mp h3).2
  · intro conds sortS lim off st hlim
    have hne : ¬ lim = 0 := Nat.pos_iff_ne_zero.mp hlim
    constructor
    · simp only [MongoDBService.getAll, hne, if_false]
      exact List.length_take_le _ _
    · intro r hr
      simp only [MongoDBService.getAll, hne, if_false] at hr
      have h1 := List.mem_of_mem_take hr
      have h2 := List.mem_of_mem_drop h1
      by_cases hs : sortS.isEmpty
      · simp only [hs, if_true] at h2
        exact (List.mem_filter.mp h2).2
      · simp only [hs, if_false] at h2
        have h3 := (mem_sortBy _ _ _).mp h2
        exact (List.mem_filter.mp h3).2

/-- Witness for C4 (amended): instantiates the pagination/filter properties
at a concrete two-row table and a concrete Document collection. -/
theorem C4_getAll_amended_witness :
    (MySQLService.getAll [("a", Value.vint 1)] [("b", Dir.desc)] 1 0
        ⟨[[("a", Value.vint 1), ("b", Value.vint 2)], [("a", Value.vint 2), ("b", Value.vint 9)]], 0⟩ =
      (.ok [[("a", Value.vint 1), ("b", Value.vint 2)]],
        ⟨[[("a", Value.vint 1), ("b", Value.vint 2)], [("a", Value.vint 2), ("b", Value.vint 9)]], 0⟩)) ∧
    (([[("a", Value.vint 1), ("b", Value.vint 2)]] : List Row).length ≤ 1 ∧
      ∀ r ∈ ([[("a", Value.vint 1), ("b", Value.vint 2)]] : List Row),
        matchesAll [("a", Value.vint 1)] r = true) ∧
    ((MongoDBService.getAll [("a", Value.vint 1)] [("b", (-1 : Int))] 1 0
        [[("a", Value.vint 1), ("b", Value.vint 2)], [("a", Value.vint 1), ("b", Value.vint 7)]]).length ≤ 1 ∧
      ∀ r ∈ MongoDBService.getAll [("a", Value.vint 1)] [("b", (-1 : Int))] 1 0
        [[("a", Value.vint 1), ("b", Value.vint 2)], [("a", Value.vint 1), ("b", Value.vint 7)]],
        matchesAll [("a", Value.vint 1)] r = true) := by
  refine ⟨by decide, ?_, ?_⟩
  · exact C4_getAll_amended.2.2.1 [("a", Value.vint 1)] [("b", Dir.desc)] 1 0
      [[("a", Value.vint 1), ("b", Value.vint 2)], [("a", Value.vint 2), ("b", Value.vint 9)]]
      [[("a", Value.vint 1), ("b", Value.vint 2)]]
      ⟨[[("a", Value.vint 1), ("b", Value.vint 2)], [("a", Value.vint 2), ("b", Value.vint 9)]], 0⟩
      (by decide)
  · exact C4_getAll_amended.2.2.2.1 [("a", Value.vint 1)] [("b", (-1 : Int))] 1 0
      [[("a", Value.vint 1), ("b", Value.vint 2)], [("a", Value.vint 1), ("b", Value.vint 7)]] (by decide)

/-- C5: the retry wrapper's true clauses hold — it sleeps the linear-backoff
delays `[1000 * 1, 1000 * 2]` (prefix thereof), so it runs the operation at
most 3 times; a persistently failing operation surfaces the *final*
attempt's error unchanged; `create`, `bulkInsert`, `get` and `update` are
wrapped (one pending transient fault is absorbed by a retry, sleeping
1000 ms), while `delete` and `increment` are not (one pending transient
fault fails them outright).  But the last clause of the claim fails:
`transaction` dispatches its actions to the wrapped public methods, so a
create statement *inside an open transaction* is individually retried — with
one pending fault the transaction sleeps 1000 ms, retries the insert and
returns `true`. -/
theorem C5_retry_wrapper_and_transaction :
    (∀ (A : Type) (op : MySQLService.SqlState → Except Err A × MySQLService.SqlState)
        (st : MySQLService.SqlState),
      (MySQLService.executeWithRetry op st).2.2 = [] ∨
        (MySQLService.executeWithRetry op st).2.2 = [1000] ∨
        (MySQLService.executeWithRetry op st).2.2 = [1000, 2000]) ∧
    (∀ (A : Type) (e : Err) (st : MySQLService.SqlState),
      MySQLService.executeWithRetry (A := A) (fun s => (.error e, s)) st =
        (.error e, st, [1000, 2000])) ∧
    (MySQLService.executeWithRetry (A := Nat)
        (fun s => (.error (.backend (toString s.faults)), ⟨s.table, s.faults + 1⟩))
        ⟨[], 0⟩ =
      (.error (.backend ("2")), ⟨[], 3⟩, [1000, 2000])) ∧
    (MySQLService.create [("x", Value.vint 1)] ⟨[], 1⟩ =
      (.ok 1, ⟨[[("x", Value.vint 1)]], 0⟩, [1000])) ∧
    (MySQLService.bulkInsert [[("a", Value.vint 1)]] ⟨[], 1⟩ =
      (.ok 1, ⟨[[("a", Value.vint 1)]], 0⟩, [1000])) ∧
    (MySQLService.get [("a", Value.vint 1)] ⟨[], 1⟩ =
      (.ok none, ⟨[], 0⟩, [1000])) ∧
    (MySQLService.update [("b", Value.vint 2)] [("a", Value.vint 1)]
        ⟨[[("a", Value.vint 1), ("b", Value.vint 1)]], 1⟩ =
      (.ok true, ⟨[[("a", Value.vint 1), ("b", Value.vint 2)]], 0⟩, [1000])) ∧
    (MySQLService.delete [("a", Value.vint 1)] ⟨[[("a", Value.vint 1)]], 1⟩ =
      (.error .transient, ⟨[[("a", Value.vint 1)]], 0⟩)) ∧
    (MySQLService.increment "f" 1 [("a", Value.vint 1)] ⟨[], 1⟩ =
      (.error .transient, ⟨[], 0⟩)) ∧
    (MySQLService.transaction [⟨"create", some [("x", Value.vint 1)], none⟩] ⟨[], 1⟩ =
      (.ok true, ⟨[[("x", Value.vint 1)]], 0⟩, [1000])) := by
  refine ⟨?_, ?_, by decide, by decide, by decide, by decide, by decide, by decide,
    by decide, by decide⟩
  · intro A op st
    rcases h1 : op st with ⟨r1, st1⟩
    cases r1 with
    | ok a => simp [MySQLService.executeWithRetry, h1]
    | error e1 =>
      rcases h2 : op st1 with ⟨r2, st2⟩
      cases r2 with
      | ok a => simp [MySQLService.executeWithRetry, h1, h2, MySQLService.retryDelay]
      | error e2 =>
        rcases h3 : op st2 with ⟨r3, st3⟩
        cases r3 with
        | ok a => simp [MySQLService.executeWithRetry, h1, h2, h3, MySQLService.retryDelay]
        | error e3 => simp [MySQLService.executeWithRetry, h1, h2, h3, MySQLService.retryDelay]
  · intro A e st
    rfl

/-- C6 (counterexample): `bulkInsert` with an *empty* array returns `0`
without error (the claim requires a `ValidationError`); and two items with
the same number of keys but *different* key names are accepted without error
— the second item's value is even inserted under the first item's column
name `a`. -/
theorem C6_bulkInsert_empty_and_shape :
    MySQLService.bulkInsert [] ⟨[[("z", Value.vint 9)]], 0⟩ =
      (.ok 0, ⟨[[("z", Value.vint 9)]], 0⟩, []) ∧
    MySQLService.bulkInsert [[("a", Value.vint 1)], [("b", Value.vint 2)]] ⟨[], 0⟩ =
      (.ok 2, ⟨[[("a", Value.vint 1)], [("a", Value.vint 2)]], 0⟩, []) := by
  exact ⟨by decide, by decide⟩

/-- C6 (amended): `bulkInsert` returns `0` immediately (no error, state
untouched) on an empty array; it fails with the `ValidationError`
`All items in array must have the same structure` only when some item has a
*different number* of keys than the first item (the failing check runs
inside the retry wrapper, so it is even attempted three times, sleeping
1000 ms and 2000 ms); and items with equal key counts but different key
names are accepted, their values inserted under the first item's column
list. -/
theorem C6_bulkInsert_amended :
    (∀ (st : MySQLService.SqlState),
      MySQLService.bulkInsert [] st = (.ok 0, st, [])) ∧
    (∀ (t : List Row),
      MySQLService.bulkInsert [[("a", Value.vint 1)], [("a", Value.vint 1), ("b", Value.vint 2)]]
          ⟨t, 0⟩ =
        (.error (.validation ("All items in array must have the same structure")),
          ⟨t, 0⟩, [1000, 2000])) ∧
    (MySQLService.bulkInsert [[("a", Value.vint 1)], [("b", Value.vint 2)], [("c", Value.vint 3)]]
        ⟨[], 0⟩ =
      (.ok 3, ⟨[[("a", Value.vint 1)], [("a", Value.vint 2)], [("a", Value.vint 3)]], 0⟩, [])) := by
  refine ⟨fun st => rfl, fun t => rfl, by decide⟩

section IncLemmas

lemma addAmount_neg_cancel (a : Int) (v : Value) :
    MySQLService.addAmount (-a) (MySQLService.addAmount a v) = v := by
  cases v with
  | vint n => simp [MySQLService.addAmount]
  | vstr s => rfl
  | vbool b => rfl
  | vnull => rfl
  | vobj fs => rfl

lemma incRow_cons (f : String) (a : Int) (k1 : String) (v1 : Value) (rest : Row) :
    MySQLService.incRow f a ((k1, v1) :: rest) =
      (if k1 = f then (k1, MySQLService.addAmount a v1) else (k1, v1)) ::
        MySQLService.incRow f a rest := rfl

lemma lookup_cons_eq (k k1 : String) (v1 : Value) (rest : Row) (hk : k = k1) :
    ((k1, v1) :: rest).lookup k = some v1 := by
  subst hk
  simp [List.lookup]

lemma lookup_cons_ne (k k1 : String) (v1 : Value) (rest : Row) (hk : k ≠ k1) :
    ((k1, v1) :: rest).lookup k = rest.lookup k := by
  simp [List.lookup, beq_eq_false_iff_ne.mpr hk]

lemma lookup_incRow (f : String) (a : Int) (k : String) (h : k ≠ f) (row : Row) :
    (MySQLService.incRow f a row).lookup k = row.lookup k := by
  induction row with
  | nil => rfl
  | cons kv rest ih =>
    rcases kv with ⟨k1, v1⟩
    rw [incRow_cons]
    by_cases hf : k1 = f
    · have hk : k ≠ k1 := fun he => h (he.trans hf)
      rw [if_pos hf, lookup_cons_ne k k1 _ _ hk, lookup_cons_ne k k1 v1 rest hk]
      exact ih
    · rw [if_neg hf]
      by_cases hk : k = k1
      · rw [lookup_cons_eq k k1 v1 _ hk, lookup_cons_eq k k1 v1 rest hk]
      · rw [lookup_cons_ne k k1 v1 _ hk, lookup_cons_ne k k1 v1 rest hk]
        exact ih

lemma matchesKV_incRow (k : String) (v : Value) (f : String) (a : Int) (h : k ≠ f)
    (row : Row) : matchesKV k v (MySQLService.incRow f a row) = matchesKV k v row := by
  simp [matchesKV, lookup_incRow f a k h row]

lemma incRow_neg_cancel (f : String) (a : Int) (row : Row) :
    MySQLService.incRow f (-a) (MySQLService.incRow f a row) = row := by
  induction row with
  | nil => rfl
  | cons kv rest ih =>
    rcases kv with ⟨k1, v1⟩
    by_cases hf : k1 = f
    · subst hf
      simpa [MySQLService.incRow, addAmount_neg_cancel] using ih
    · simpa [MySQLService.incRow, hf] using ih

lemma lookup_map_set (f : String) (w : Value) :
    ∀ (doc : Row), (doc.lookup f).isSome = true →
      (doc.map fun kv => if kv.1 = f then (f, w) else kv).lookup f = some w := by
  intro doc
  induction doc with
  | nil =>
    intro h
    simp [List.lookup] at h
  | cons kv rest ih =>
    intro h
    rcases kv with ⟨k1, v1⟩
    by_cases hk : k1 = f
    · subst hk
      rw [List.map_cons,
        show (if ((k1, v1) : String × Value).1 = k1 then (k1, w) else (k1, v1)) = (k1, w)
          from if_pos rfl]
      exact lookup_cons_eq k1 k1 w _ rfl
    · rw [List.map_cons,
        show (if ((k1, v1) : String × Value).1 = f then (f, w) else (k1, v1)) = (k1, v1)
          from if_neg hk,
        lookup_cons_ne f k1 v1 _ (fun he => hk he.symm)]
      apply ih
      rwa [lookup_cons_ne f k1 v1 rest (fun he => hk he.symm)] at h

lemma updateFirstWith_none (c : Conds) (g : Row → Except Err Row) :
    ∀ (st : MongoDBService.MongoState), (∀ doc ∈ st, matchesAll c doc = false) →
      MongoDBService.updateFirstWith c g st = .ok st := by
  intro st
  induction st with
  | nil => intro h; rfl
  | cons doc rest ih =>
    intro h
    have hd := h doc (List.mem_cons_self doc rest)
    have ih2 := ih fun d hm => h d (List.mem_cons_of_mem _ hm)
    simp [MongoDBService.updateFirstWith, hd, ih2, Except.map]

end IncLemmas

/-- C7 (counterexample): three clauses of the claim fail.  The Relational
`increment` with conditions `a = 1 AND b = 2` increments field `f` of the
record `a = 1, b = 3, f = 5` — which does *not* match all conditions — and
returns `true` (the claim requires no change and `false`); the Relational
`increment` on a matching record whose `f` is `NULL` leaves it `NULL`
(`NULL + 5` is `NULL`: missing is not treated as zero) and returns `false`;
and the WideColumn `increment` whose key matches *no* stored record returns
`true` anyway — and even upserts a fresh record — where the claim requires
`false` with no record changed. -/
theorem C7_increment_ignores_later_conditions :
    (MySQLService.increment "f" 1 [("a", Value.vint 1), ("b", Value.vint 2)]
        ⟨[[("a", Value.vint 1), ("b", Value.vint 3), ("f", Value.vint 5)]], 0⟩ =
      (.ok true, ⟨[[("a", Value.vint 1), ("b", Value.vint 3), ("f", Value.vint 6)]], 0⟩) ∧
    matchesAll [("a", Value.vint 1), ("b", Value.vint 2)]
      [("a", Value.vint 1), ("b", Value.vint 3), ("f", Value.vint 5)] = false) ∧
    (MySQLService.increment "f" 5 [("a", Value.vint 1)]
        ⟨[[("a", Value.vint 1), ("f", Value.vnull)]], 0⟩ =
      (.ok false, ⟨[[("a", Value.vint 1), ("f", Value.vnull)]], 0⟩)) ∧
    (DynamoDBService.increment "f" 1 [("id", Value.vint 7)] ⟨["id"], []⟩ =
      (.ok true, ⟨["id"], [[("id", Value.vint 7), ("f", Value.vint 1)]]⟩)) := by
  exact ⟨⟨by decide, by decide⟩, by decide, by decide⟩

/-- C7 (amended): per-variant `increment` semantics.  Relational: filters on
only the *first* key of the condition set, adding the amount to field `f` of
every row whose value at that key matches (later conditions ignored) and
returning true iff at least one such row actually changed; a `NULL` `f`
stays `NULL`; incrementing by `a` then `-a` (for `f` distinct from the
condition key) restores the table.  Document: the *first* matching document
is updated, a missing `f` is treated as zero (created with the amount,
returning true), an integer `f` becomes `f + a` (returning true for
`a ≠ 0`), and with no matching document nothing changes and false is
returned.  WideColumn: the item with the given primary key has `f` treated
as zero when missing and incremented when an integer, but the method returns
`true` unconditionally — even upserting a fresh item when no stored item has
that key. -/
theorem C7_increment_amended :
    (∀ (f : String) (a : Int) (k : String) (v : Value) (rest : Conds) (t : List Row),
      MySQLService.increment f a ((k, v) :: rest) ⟨t, 0⟩ =
        (.ok (decide (0 < (t.filter fun row =>
            matchesKV k v row && decide (MySQLService.incRow f a row ≠ row)).length)),
          ⟨t.map fun row => if matchesKV k v row then MySQLService.incRow f a row else row,
            0⟩)) ∧
    (∀ (f : String) (a : Int) (k : String) (v : Value) (rest : Conds) (t : List Row),
      k ≠ f →
        ((MySQLService.increment f (-a) ((k, v) :: rest)
          (MySQLService.increment f a ((k, v) :: rest) ⟨t, 0⟩).2).2).table = t) ∧
    (∀ (f : String) (a : Int) (c : Conds) (doc : Row) (rest : MongoDBService.MongoState),
      matchesAll c doc = true → doc.lookup f = none →
        MongoDBService.increment f a c (doc :: rest) =
          (.ok true, (doc ++ [(f, Value.vint a)]) :: rest)) ∧
    (∀ (f : String) (a : Int) (c : Conds) (doc : Row) (rest : MongoDBService.MongoState)
        (n : Int),
      matchesAll c doc = true → doc.lookup f = some (Value.vint n) → a ≠ 0 →
        MongoDBService.increment f a c (doc :: rest) =
          (.ok true,
            (doc.map fun kv => if kv.1 = f then (f, Value.vint (n + a)) else kv) :: rest)) ∧
    (∀ (f : String) (a : Int) (c : Conds) (st : MongoDBService.MongoState),
      (∀ doc ∈ st, matchesAll c doc = false) →
        MongoDBService.increment f a c st = (.ok false, st)) ∧
    (∀ (f : String) (a : Int) (c : Conds) (ks : List String) (item : Row),
      DynamoDBService.sameKeySet (c.map Prod.fst) ks = true →
        matchesAll c item = true → item.lookup f = none →
          DynamoDBService.increment f a c ⟨ks, [item]⟩ =
            (.ok true, ⟨ks, [item ++ [(f, Value.vint a)]]⟩)) ∧
    (∀ (f : String) (a : Int) (c : Conds) (ks : List String) (item : Row) (n : Int),
      DynamoDBService.sameKeySet (c.map Prod.fst) ks = true →
        matchesAll c item = true → item.lookup f = some (Value.vint n) →
          DynamoDBService.increment f a c ⟨ks, [item]⟩ =
            (.ok true,
              ⟨ks, [item.map fun kv => if kv.1 = f then (f, Value.vint (n + a)) else kv]⟩)) ∧
    (∀ (f : String) (a : Int) (c : Conds) (ks : List String),
      DynamoDBService.sameKeySet (c.map Prod.fst) ks = true → c.lookup f = none →
        DynamoDBService.increment f a c ⟨ks, []⟩ =
          (.ok true, ⟨ks, [c ++ [(f, Value.vint a)]]⟩)) := by
  refine ⟨?_, ?_, ?_, ?_, ?_, ?_, ?_, ?_⟩
  · intro f a k v rest t
    rfl
  · intro f a k v rest t h
    have key : ∀ row : Row,
        (fun row => if matchesKV k v row then MySQLService.incRow f (-a) row else row)
          ((fun row => if matchesKV k v row then MySQLService.incRow f a row else row) row)
          = row := by
      intro row
      by_cases hm : matchesKV k v row
      · simp [hm, matchesKV_incRow k v f a h, incRow_neg_cancel]
      · simp [hm]
    show ((t.map fun row => if matchesKV k v row then MySQLService.incRow f a row else row).map
        fun row => if matchesKV k v row then MySQLService.incRow f (-a) row else row) = t
    rw [List.map_map]
    calc (t.map _) = t.map id := List.map_congr_left fun row _ => key row
    _ = t := List.map_id t
  · intro f a c doc rest h1 h2
    have hstep : MongoDBService.updateFirstWith c
        (fun r => MongoDBService.incField r f (.vint a)) (doc :: rest) =
        .ok ((doc ++ [(f, Value.vint a)]) :: rest) := by
      simp [MongoDBService.updateFirstWith, h1, MongoDBService.incField, h2, Except.map]
    have hne : (doc ++ [(f, Value.vint a)]) :: rest ≠ doc :: rest := by
      intro he
      injection he with h3 h4
      have h5 := congrArg List.length h3
      simp at h5
    simp only [MongoDBService.increment, hstep]
    simp [hne]
  · intro f a c doc rest n h1 h2 h3
    have hstep : MongoDBService.updateFirstWith c
        (fun r => MongoDBService.incField r f (.vint a)) (doc :: rest) =
        .ok ((doc.map fun kv => if kv.1 = f then (f, Value.vint (n + a)) else kv) :: rest) := by
      simp [MongoDBService.updateFirstWith, h1, MongoDBService.incField, h2, Except.map]
    have hdoc : (doc.map fun kv => if kv.1 = f then (f, Value.vint (n + a)) else kv) ≠ doc := by
      intro he
      have h4 := lookup_map_set f (Value.vint (n + a)) doc (by rw [h2]; rfl)
      rw [he, h2] at h4
      injection h4 with h5
      injection h5 with h6
      omega
    have hne : (doc.map fun kv => if kv.1 = f then (f, Value.vint (n + a)) else kv) :: rest ≠
        doc :: rest := by
      intro he
      injection he with h4 h5
      exact hdoc h4
    simp only [MongoDBService.increment, hstep]
    simp [hne]
  · intro f a c st h
    have h0 := updateFirstWith_none c (fun r => MongoDBService.incField r f (.vint a)) st h
    simp only [MongoDBService.increment, h0]
    simp
  · intro f a c ks item h1 h2 h3
    simp [DynamoDBService.increment, h1, DynamoDBService.incUpdate, h2,
      DynamoDBService.incItem, h3, Except.map]
  · intro f a c ks item n h1 h2 h3
    simp [DynamoDBService.increment, h1, DynamoDBService.incUpdate, h2,
      DynamoDBService.incItem, h3, Except.map]
  · intro f a c ks h1 h2
    simp [DynamoDBService.increment, h1, DynamoDBService.incUpdate,
      DynamoDBService.incItem, h2, Except.map]

/-- Witness for C7 (amended): concrete instances of every hypothesis-bearing
clause — the relational increment-then-decrement round trip, the Document
missing-field-creation, integer increment and no-match cases, and the
WideColumn missing-field, integer-field and upsert cases. -/
theorem C7_increment_amended_witness :
    (((MySQLService.increment "f" (-1) [("a", Value.vint 1)]
        (MySQLService.increment "f" 1 [("a", Value.vint 1)]
          ⟨[[("a", Value.vint 1), ("f", Value.vint 5)]], 0⟩).2).2).table =
      [[("a", Value.vint 1), ("f", Value.vint 5)]]) ∧
    (MongoDBService.increment "f" 2 [("a", Value.vint 1)] [[("a", Value.vint 1)]] =
      (.ok true, [[("a", Value.vint 1), ("f", Value.vint 2)]])) ∧
    (MongoDBService.increment "f" 1 [("a", Value.vint 1)]
        [[("a", Value.vint 1), ("f", Value.vint 5)]] =
      (.ok true, [[("a", Value.vint 1), ("f", Value.vint 6)]])) ∧
    (MongoDBService.increment "f" 1 [("z", Value.vint 9)] [[("a", Value.vint 1)]] =
      (.ok false, [[("a", Value.vint 1)]])) ∧
    (DynamoDBService.increment "f" 3 [("id", Value.vint 1)]
        ⟨["id"], [[("id", Value.vint 1)]]⟩ =
      (.ok true, ⟨["id"], [[("id", Value.vint 1), ("f", Value.vint 3)]]⟩)) ∧
    (DynamoDBService.increment "f" 0 [("id", Value.vint 1)]
        ⟨["id"], [[("id", Value.vint 1), ("f", Value.vint 5)]]⟩ =
      (.ok true, ⟨["id"], [[("id", Value.vint 1), ("f", Value.vint 5)]]⟩)) ∧
    (DynamoDBService.increment "f" 4 [("id", Value.vint 7)] ⟨["id"], []⟩ =
      (.ok true, ⟨["id"], [[("id", Value.vint 7), ("f", Value.vint 4)]]⟩)) := by
  refine ⟨?_, ?_, ?_, ?_, ?_, ?_, ?_⟩
  · exact C7_increment_amended.2.1 "f" 1 "a" (Value.vint 1) []
      [[("a", Value.vint 1), ("f", Value.vint 5)]] (by decide)
  · exact C7_increment_amended.2.2.1 "f" 2 [("a", Value.vint 1)] [("a", Value.vint 1)] []
      (by decide) (by decide)
  · exact C7_increment_amended.2.2.2.1 "f" 1 [("a", Value.vint 1)]
      [("a", Value.vint 1), ("f", Value.vint 5)] [] 5 (by decide) (by decide) (by decide)
  · exact C7_increment_amended.2.2.2.2.1 "f" 1 [("z", Value.vint 9)] [[("a", Value.vint 1)]]
      (by decide)
  · exact C7_increment_amended.2.2.2.2.2.1 "f" 3 [("id", Value.vint 1)] ["id"]
      [("id", Value.vint 1)] (by decide) (by decide) (by decide)
  · exact C7_increment_amended.2.2.2.2.2.2.1 "f" 0 [("id", Value.vint 1)] ["id"]
      [("id", Value.vint 1), ("f", Value.vint 5)] 5 (by decide) (by decide) (by decide)
  · exact C7_increment_amended.2.2.2.2.2.2.2 "f" 4 [("id", Value.vint 7)] ["id"]
      (by decide) (by decide)

/-- C8 (counterexample): in the WideColumn variant, `exists` is a
primary-key `get`; on a table with key schema `[id]`, the non-key condition
set `x = 5` makes `exists` fail with a `ValidationException`, although
`count(x = 5) = 1 > 0` — so `exists(C)` does not equal `count(C) > 0` for
every condition set. -/
theorem C8_dynamo_exists_is_key_lookup :
    DynamoDBService.«exists» [("x", Value.vint 5)]
        ⟨["id"], [[("id", Value.vint 1), ("x", Value.vint 5)]]⟩ =
      .error (.backend ("ValidationException: the provided key element does not match the schema")) ∧
    DynamoDBService.count [("x", Value.vint 5)]
        ⟨["id"], [[("id", Value.vint 1), ("x", Value.vint 5)]]⟩ = 1 := by
  exact ⟨by decide, by decide⟩

/-- C8 (amended): `exists(C) = (count(C) > 0)` holds in the Relational
variant (whenever `count` succeeds, `exists` returns exactly `count > 0` in
the same posterior state) and in the Document variant (for every condition
set and state); in the WideColumn variant it holds only when the condition
set is exactly the table's key schema — for other condition sets `exists`
fails instead of returning `count(C) > 0`. -/
theorem C8_exists_count_amended :
    (∀ (conds : Conds) (st : MySQLService.SqlState) (n : Nat)
        (st2 : MySQLService.SqlState),
      MySQLService.count conds st = (.ok n, st2) →
        MySQLService.«exists» conds st = (.ok (decide (0 < n)), st2)) ∧
    (∀ (c : Conds) (st : MongoDBService.MongoState),
      MongoDBService.«exists» c st = decide (0 < MongoDBService.count c st)) ∧
    (∀ (c : Conds) (st : DynamoDBService.DynState),
      DynamoDBService.sameKeySet (c.map Prod.fst) st.keySchema = true →
        DynamoDBService.«exists» c st = .ok (decide (0 < DynamoDBService.count c st))) := by
  refine ⟨?_, ?_, ?_⟩
  · intro conds st n st2 h
    simp [MySQLService.«exists», h]
  · intro c st
    simp [MongoDBService.«exists», MongoDBService.count, find?_isSome_eq_filter_pos]
  · intro c st h
    simp [DynamoDBService.«exists», DynamoDBService.get, h, DynamoDBService.count,
      find?_isSome_eq_filter_pos, Except.map]

/-- Witness for C8 (amended): the Relational equivalence at an empty table
and the WideColumn equivalence at a condition set that is exactly the key
schema. -/
theorem C8_exists_count_amended_witness :
    MySQLService.«exists» [("a", Value.vint 1)] ⟨[], 0⟩ = (.ok false, ⟨[], 0⟩) ∧
    DynamoDBService.«exists» [("id", Value.vint 1)] ⟨["id"], [[("id", Value.vint 1)]]⟩ =
      .ok true := by
  constructor
  · exact C8_exists_count_amended.1 [("a", Value.vint 1)] ⟨[], 0⟩ 0 ⟨[], 0⟩ (by decide)
  · exact C8_exists_count_amended.2.2 [("id", Value.vint 1)]
      ⟨["id"], [[("id", Value.vint 1)]]⟩ (by decide)

/-- C10: the Relational `create` and `update` JSON-stringify every
object-typed field value before writing: creating a record with an
object-valued field `b` stores `b` as the JSON string, a subsequent `get` on
that table returns the row with the JSON *string* (not the object), and an
`update` setting `b` to an object likewise stores the JSON string. -/
theorem C10_object_fields_json_serialized :
    ∀ (v : Value) (t : List Row), isObjectType v = true →
      (MySQLService.create [("a", Value.vint 1), ("b", v)] ⟨t, 0⟩ =
        (.ok (t.length + 1),
          ⟨t ++ [[("a", Value.vint 1), ("b", Value.vstr (jsonStringify v))]], 0⟩, [])) ∧
      (MySQLService.get [("a", Value.vint 1)]
          ⟨[[("a", Value.vint 1), ("b", Value.vstr (jsonStringify v))]], 0⟩ =
        (.ok (some [("a", Value.vint 1), ("b", Value.vstr (jsonStringify v))]),
          ⟨[[("a", Value.vint 1), ("b", Value.vstr (jsonStringify v))]], 0⟩, [])) ∧
      (MySQLService.update [("b", v)] [("a", Value.vint 1)]
          ⟨[[("a", Value.vint 1), ("b", Value.vint 0)]], 0⟩ =
        (.ok true, ⟨[[("a", Value.vint 1), ("b", Value.vstr (jsonStringify v))]], 0⟩, [])) := by
  intro v t h
  cases v with
  | vnull => exact ⟨rfl, rfl, rfl⟩
  | vobj fs => exact ⟨rfl, rfl, rfl⟩
  | vint n => simp [isObjectType] at h
  | vstr s => simp [isObjectType] at h
  | vbool b => simp [isObjectType] at h

/-- Witness for C10: the serialization round at the concrete nested object
value `vobj [k = 2]` on an empty table. -/
theorem C10_object_fields_json_serialized_witness :
    MySQLService.create [("a", Value.vint 1), ("b", Value.vobj [("k", Value.vint 2)])]
        ⟨[], 0⟩ =
      (.ok 1,
        ⟨[[("a", Value.vint 1),
          ("b", Value.vstr (jsonStringify (Value.vobj [("k", Value.vint 2)])))]], 0⟩, []) :=
  (C10_object_fields_json_serialized (Value.vobj [("k", Value.vint 2)]) [] (by decide)).1
